import Mathlib

/-!
Verification of the GATT peripheral core of `bluster`
(`src/peripheral/corebluetooth/mod.rs`): the capability/permission
mapper, the power state machine, the advertisement composer, the GATT
tree builder, and the request servicer, shallowly embedded in Lean.

Machine integers: the Rust code accumulates the flag sets in `u8`
local variables with `|=`; all modelled flag constants fit in a byte,
so ordinary `Nat` with `|||` is value-preserving here.
-/

namespace Bluster

/-- Modelled from the spec: the `gatt::characteristic::Property`
enumeration lives outside `src/`; §3 of the spec lists the five
capabilities a characteristic may offer. -/
inductive Property where
  | read
  | write
  | writeWithoutResponse
  | notify
  | indicate
deriving DecidableEq, Repr

/-- Modelled from the spec: a UUID (external `uuid` crate) as its 16
bytes; only its canonical textual rendering matters to this core. -/
structure Uuid where
  bytes : List Nat
deriving DecidableEq, Repr

/-- Modelled from the spec: `gatt::characteristic::Characteristic`
(outside `src/`), per §3: uuid, optional static value, the offered
`properties` set and its `secure` subset.  The Rust sets are
`HashSet<Property>`; only membership is observable, so they are
embedded as lists queried with `contains`. -/
structure Characteristic where
  uuid : Uuid
  value : Option (List Nat)
  properties : List Property
  secure : List Property
deriving DecidableEq, Repr

/-- Modelled from the spec: `gatt::primary_service::PrimaryService`
(outside `src/`), per §3: uuid plus an ordered sequence of
characteristics. -/
structure PrimaryService where
  uuid : Uuid
  characteristics : List Characteristic
deriving DecidableEq, Repr

/-! ### Host-stack flag constants

Modelled from the spec: the `ffi` module declaring
`CBCharacteristicProperties` and `CBAttributePermissions` is not under
`src/`.  Per §4.1 the host stack exposes distinct capability bits for
read / write / write-without-response / notify / indicate (the last
two each with an encryption-required variant) and distinct permission
bits readable / writeable / read-requires-encryption /
write-requires-encryption.  Values are chosen as distinct powers of
two that fit in a byte, so the code's `as u8` casts preserve them. -/

def cbCharacteristicPropertyRead : Nat := 0x02
def cbCharacteristicPropertyWriteWithoutResponse : Nat := 0x04
def cbCharacteristicPropertyWrite : Nat := 0x08
def cbCharacteristicPropertyNotify : Nat := 0x10
def cbCharacteristicPropertyIndicate : Nat := 0x20
def cbCharacteristicPropertyNotifyEncryptionRequired : Nat := 0x40
def cbCharacteristicPropertyIndicateEncryptionRequired : Nat := 0x80

def cbAttributePermissionsReadable : Nat := 0x01
def cbAttributePermissionsWriteable : Nat := 0x02
def cbAttributePermissionsReadEncryptionRequired : Nat := 0x04
def cbAttributePermissionsWriteEncryptionRequired : Nat := 0x08

/-- Core of the capability/permission mapper inside
`Peripheral::add_service` (mod.rs lines 142-189), abstracted over the
ten set-membership tests the Rust code performs.  The Rust code
initialises two `u8` locals `properties` / `permissions` to `0x000`
and runs five `if` blocks in source order (Read, WriteWithoutResponse,
Write, Notify, Indicate), OR-ing flag constants into them; this
function threads the pair of accumulators through the same five
steps.  `r`/`rs` are `properties.contains(Read)` /
`secure.contains(Read)`, and so on in the code's evaluation order. -/
def mapFlagsB (r rs ww wws w ws n ns i is : Bool) : Nat × Nat :=
  let st0 : Nat × Nat := (0x000, 0x000)
  let st1 :=
    if r then
      (st0.1 ||| cbCharacteristicPropertyRead,
       if rs then
         st0.2 ||| cbAttributePermissionsReadEncryptionRequired
       else
         st0.2 ||| cbAttributePermissionsReadable)
    else st0
  let st2 :=
    if ww then
      (st1.1 ||| cbCharacteristicPropertyWriteWithoutResponse,
       if wws then
         st1.2 ||| cbAttributePermissionsWriteEncryptionRequired
       else
         st1.2 ||| cbAttributePermissionsWriteable)
    else st1
  let st3 :=
    if w then
      (st2.1 ||| cbCharacteristicPropertyWrite,
       if ws then
         st2.2 ||| cbAttributePermissionsWriteEncryptionRequired
       else
         st2.2 ||| cbAttributePermissionsWriteable)
    else st2
  let st4 :=
    if n then
      (if ns then
         st3.1 ||| cbCharacteristicPropertyNotifyEncryptionRequired
       else
         st3.1 ||| cbCharacteristicPropertyNotify,
       st3.2)
    else st3
  let st5 :=
    if i then
      (if is then
         st4.1 ||| cbCharacteristicPropertyIndicateEncryptionRequired
       else
         st4.1 ||| cbCharacteristicPropertyIndicate,
       st4.2)
    else st4
  st5

/-- The capability/permission mapper inside `Peripheral::add_service`
(mod.rs lines 142-189), applied to a characteristic's `properties`
and `secure` sets: `(capability flags, permission flags)`. -/
def mapFlags (props secure : List Property) : Nat × Nat :=
  mapFlagsB
    (props.contains Property.read) (secure.contains Property.read)
    (props.contains Property.writeWithoutResponse)
    (secure.contains Property.writeWithoutResponse)
    (props.contains Property.write) (secure.contains Property.write)
    (props.contains Property.notify) (secure.contains Property.notify)
    (props.contains Property.indicate) (secure.contains Property.indicate)

/-! ### Power state machine -/

/-- The six `CBManagerState` values matched exhaustively in
`peripheral_manager_did_update_state` (mod.rs lines 259-287). -/
inductive CBManagerState where
  | unknown
  | resetting
  | unsupported
  | unauthorized
  | poweredOff
  | poweredOn
deriving DecidableEq, Repr

/-- Objective-C `YES` (BOOL is a signed byte; `YES = 1`). -/
def yesBool : Int := 1

/-- Objective-C `NO` (`NO = 0`). -/
def noBool : Int := 0

/-- The observable state of the delegate object: the `poweredOn` ivar,
stored as an Objective-C BOOL (a byte-sized integer).  The type is
`Int` rather than `Bool` so that the panic branch of
`objc_to_rust_bool` on other byte values is representable. -/
structure DelegateState where
  poweredOn : Int
deriving DecidableEq, Repr

/-- `objc_to_rust_bool` (mod.rs lines 31-37); the `panic!` branch on a
value that is neither `YES` nor `NO` is embedded as `none`. -/
def objc_to_rust_bool (objcBool : Int) : Option Bool :=
  if objcBool = yesBool then some true
  else if objcBool = noBool then some false
  else none

/-- The delegate `init` method (mod.rs lines 236-255): the
`poweredOn` ivar is set to `NO`. -/
def initDelegate : DelegateState :=
  { poweredOn := noBool }

/-- `peripheral_manager_did_update_state` (mod.rs lines 259-287): the
handler matches all six states but assigns the ivar only for
`PoweredOff` (to `NO`) and `PoweredOn` (to `YES`); the four other
arms only print and leave the ivar untouched. -/
def didUpdateState (st : DelegateState) (state : CBManagerState) : DelegateState :=
  match state with
  | CBManagerState.unknown => st
  | CBManagerState.resetting => st
  | CBManagerState.unsupported => st
  | CBManagerState.unauthorized => st
  | CBManagerState.poweredOff => { st with poweredOn := noBool }
  | CBManagerState.poweredOn => { st with poweredOn := yesBool }

/-- `Peripheral::is_powered_on` (mod.rs lines 82-88): reads the
`poweredOn` ivar as a BOOL and converts it with `objc_to_rust_bool`. -/
def is_powered_on (st : DelegateState) : Option Bool :=
  objc_to_rust_bool st.poweredOn

/-- The delegate state after a sequence of `power_state_changed`
events delivered (serially, in order) to a freshly constructed
Peripheral. -/
def runEvents (events : List CBManagerState) : DelegateState :=
  events.foldl didUpdateState initDelegate

/-- The power-toggle events: the two states whose handler arms assign
the `poweredOn` ivar. -/
def isToggleEvent (state : CBManagerState) : Bool :=
  state == CBManagerState.poweredOff || state == CBManagerState.poweredOn

/-! ### Advertisement composer -/

/-- Lowercase hexadecimal digit. -/
def hexDigit (n : Nat) : Char :=
  if n < 10 then Char.ofNat (48 + n) else Char.ofNat (87 + n)

/-- Two lowercase hex digits of a byte. -/
def byteToHex (b : Nat) : List Char :=
  [hexDigit (b / 16 % 16), hexDigit (b % 16)]

/-- Modelled from the spec: UUID rendering is an external collaborator
(the `uuid` crate); `to_hyphenated` (and the crate's `to_string`)
produce the canonical hyphenated textual form, the 16 bytes as
lowercase hex in 8-4-4-4-12 groups. -/
def uuidToHyphenated (u : Uuid) : String :=
  let hex := fun (bs : List Nat) => String.mk ((bs.map byteToHex).flatten)
  String.intercalate "-"
    [hex (u.bytes.take 4),
     hex ((u.bytes.drop 4).take 2),
     hex ((u.bytes.drop 6).take 2),
     hex ((u.bytes.drop 8).take 2),
     hex (u.bytes.drop 10)]

/-- The two advertisement dictionary keys the code pushes (ffi
constants `CBAdvertisementDataLocalNameKey` /
`CBAdvertisementDataServiceUUIDsKey`, modelled as an enumeration). -/
inductive AdvKey where
  | localNameKey
  | serviceUUIDsKey
deriving DecidableEq, Repr

/-- A value in the advertisement dictionary: an NSString or an
NSArray of NSStrings. -/
inductive AdvValue where
  | str (s : String)
  | strList (l : List String)
deriving DecidableEq, Repr

/-- `Peripheral::start_advertising` (mod.rs lines 90-120): pushes the
local-name key with a copy of `name`, then the service-UUIDs key with
the input UUIDs rendered hyphenated, in input order, and builds the
dictionary from these two key/object pairs. -/
def start_advertising (name : String) (uuids : List Uuid) :
    List (AdvKey × AdvValue) :=
  [(AdvKey.localNameKey, AdvValue.str name),
   (AdvKey.serviceUUIDsKey,
    AdvValue.strList (uuids.map (fun u => uuidToHyphenated u)))]

/-! ### GATT tree builder -/

/-- The `CBMutableCharacteristic` built per characteristic in
`add_service` (mod.rs lines 191-213): uuid string, the two flag sets
from the mapper, and the optional static value (`nil` for `None`). -/
structure CBMutableCharacteristic where
  uuid : String
  properties : Nat
  value : Option (List Nat)
  permissions : Nat
deriving DecidableEq, Repr

/-- The per-characteristic body of the `map` in `add_service`
(mod.rs lines 140-214): capability/permission mapping plus
`initWithType:properties:value:permissions:`. -/
def buildCharacteristic (c : Characteristic) : CBMutableCharacteristic :=
  { uuid := uuidToHyphenated c.uuid
    properties := (mapFlags c.properties c.secure).1
    value := c.value
    permissions := (mapFlags c.properties c.secure).2 }

/-- The `CBMutableService` registration descriptor. -/
structure CBMutableService where
  uuid : String
  primary : Bool
  characteristics : List CBMutableCharacteristic
deriving DecidableEq, Repr

/-- `Peripheral::add_service` (mod.rs lines 136-227): maps the
service's characteristics in order through `buildCharacteristic`,
then wraps them with the service uuid and `primary:YES` into the
descriptor submitted to the host stack. -/
def add_service (s : PrimaryService) : CBMutableService :=
  { uuid := uuidToHyphenated s.uuid
    primary := true
    characteristics := s.characteristics.map buildCharacteristic }

/-! ### Error-observing callbacks -/

/-- A nullable NSError argument as the callbacks receive it: the raw
pointer value (`addr = 0` for nil) together with the
`localizedDescription` the object would answer when non-null.  The
pointer value is kept because the code branches on it, not on a clean
nil-test. -/
structure NSErrorRef where
  addr : Nat
  localizedDescription : String

/-- The cast `error as BOOL` (mod.rs lines 291 and 300): the pointer
truncated to a signed byte (Objective-C BOOL is a signed char). -/
def ptrAsBool (addr : Nat) : Int :=
  if addr % 256 < 128 then (addr % 256 : Int) else (addr % 256 : Int) - 256

/-- `peripheral_manager_did_start_advertising_error` (mod.rs lines
289-296): prints the handler name, then tests the NSError by feeding
the pointer truncated to a BOOL into `objc_to_rust_bool`.  Low byte
`1` (`YES`) prints the localized description; low byte `0` (`NO`,
which includes nil but also any 256-aligned non-null pointer) skips
the description; any other low byte hits the `panic!` branch of
`objc_to_rust_bool`, embedded as `none`.  On the non-panicking paths
the result is the (unchanged) delegate state paired with the printed
lines. -/
def didStartAdvertisingError (st : DelegateState) (error : NSErrorRef) :
    Option (DelegateState × List String) :=
  (objc_to_rust_bool (ptrAsBool error.addr)).map (fun b =>
    if b then
      (st, ["peripheral_manager_did_start_advertising_error",
            error.localizedDescription])
    else
      (st, ["peripheral_manager_did_start_advertising_error"]))

/-- `peripheral_manager_did_add_service_error` (mod.rs lines 298-305):
same shape as the advertising callback, with the same
pointer-truncation test; the service argument is ignored
(`_service`). -/
def didAddServiceError (st : DelegateState) (service : CBMutableService)
    (error : NSErrorRef) : Option (DelegateState × List String) :=
  (objc_to_rust_bool (ptrAsBool error.addr)).map (fun b =>
    if b then
      (st, ["peripheral_manager_did_add_service_error",
            error.localizedDescription])
    else
      (st, ["peripheral_manager_did_add_service_error"]))

/-! ### Request servicer -/

/-- An opaque `CBATTRequest` handle echoed back by the host stack. -/
abbrev RequestHandle := Nat

/-- Modelled from the spec: the ffi `CBATTError` enumeration is not
under `src/`; §4.5/§8 name `Success` and ATT error codes such as
"read not permitted" and "insufficient encryption" as the possible
response statuses. -/
inductive CBATTError where
  | success
  | readNotPermitted
  | writeNotPermitted
  | insufficientEncryption
deriving DecidableEq, Repr

/-- `peripheral_manager_did_receive_read_request` (mod.rs lines
307-312): responds to the single request with `Success`,
unconditionally.  Modelled as the list of `(handle, status)`
responses issued. -/
def didReceiveReadRequest (request : RequestHandle) :
    List (RequestHandle × CBATTError) :=
  [(request, CBATTError.success)]

/-- `peripheral_manager_did_receive_write_requests` (mod.rs lines
314-321): iterates the delivered batch in order and responds
`Success` to each, unconditionally. -/
def didReceiveWriteRequests (requests : List RequestHandle) :
    List (RequestHandle × CBATTError) :=
  requests.map (fun request => (request, CBATTError.success))

end Bluster

namespace Bluster

/-- C1 helper, closed over the ten membership booleans: each
capability bit of the mapper output, at the positions of the modelled
constants. -/
theorem mapFlagsB_capability_bits : ∀ r rs ww wws w ws n ns i is : Bool,
    ((mapFlagsB r rs ww wws w ws n ns i is).1.testBit 1 = r)
    ∧ ((mapFlagsB r rs ww wws w ws n ns i is).1.testBit 2 = ww)
    ∧ ((mapFlagsB r rs ww wws w ws n ns i is).1.testBit 3 = w)
    ∧ ((mapFlagsB r rs ww wws w ws n ns i is).1.testBit 4 = (n && !ns))
    ∧ ((mapFlagsB r rs ww wws w ws n ns i is).1.testBit 6 = (n && ns))
    ∧ ((mapFlagsB r rs ww wws w ws n ns i is).1.testBit 5 = (i && !is))
    ∧ ((mapFlagsB r rs ww wws w ws n ns i is).1.testBit 7 = (i && is)) := by
  decide

/-- C1 helper, closed over the ten membership booleans: each
permission bit of the mapper output, at the positions of the modelled
constants.  The two write-type properties contribute to the same two
permission bits, accumulated with OR. -/
theorem mapFlagsB_permission_bits : ∀ r rs ww wws w ws n ns i is : Bool,
    ((mapFlagsB r rs ww wws w ws n ns i is).2.testBit 0 = (r && !rs))
    ∧ ((mapFlagsB r rs ww wws w ws n ns i is).2.testBit 2 = (r && rs))
    ∧ ((mapFlagsB r rs ww wws w ws n ns i is).2.testBit 1
        = ((ww && !wws) || (w && !ws)))
    ∧ ((mapFlagsB r rs ww wws w ws n ns i is).2.testBit 3
        = ((ww && wws) || (w && ws))) := by
  decide

/-- C1: for every `(properties, secure)` with `secure ⊆ properties`,
the mapper's capability flags have the read, write-without-response,
write, notify and indicate bits set exactly for the members of
`properties` (notify/indicate through the encryption-required
capability variant exactly when the property is in `secure`), and
each permission bit carries the encryption-required variant exactly
when the contributing property is in `secure`, the plain
readable/writeable variant otherwise. -/
theorem add_service_capability_mapping (props secure : List Property)
    (hsub : ∀ p, p ∈ secure → p ∈ props) :
    ((mapFlags props secure).1.testBit 1 = props.contains Property.read)
    ∧ ((mapFlags props secure).1.testBit 2 = props.contains Property.writeWithoutResponse)
    ∧ ((mapFlags props secure).1.testBit 3 = props.contains Property.write)
    ∧ ((mapFlags props secure).1.testBit 4
        = (props.contains Property.notify && !secure.contains Property.notify))
    ∧ ((mapFlags props secure).1.testBit 6
        = (props.contains Property.notify && secure.contains Property.notify))
    ∧ ((mapFlags props secure).1.testBit 5
        = (props.contains Property.indicate && !secure.contains Property.indicate))
    ∧ ((mapFlags props secure).1.testBit 7
        = (props.contains Property.indicate && secure.contains Property.indicate))
    ∧ ((mapFlags props secure).2.testBit 0
        = (props.contains Property.read && !secure.contains Property.read))
    ∧ ((mapFlags props secure).2.testBit 2
        = (props.contains Property.read && secure.contains Property.read))
    ∧ ((mapFlags props secure).2.testBit 1
        = ((props.contains Property.writeWithoutResponse
              && !secure.contains Property.writeWithoutResponse)
           || (props.contains Property.write && !secure.contains Property.write)))
    ∧ ((mapFlags props secure).2.testBit 3
        = ((props.contains Property.writeWithoutResponse
              && secure.contains Property.writeWithoutResponse)
           || (props.contains Property.write && secure.contains Property.write))) := by
  have hc := mapFlagsB_capability_bits
    (props.contains Property.read) (secure.contains Property.read)
    (props.contains Property.writeWithoutResponse)
    (secure.contains Property.writeWithoutResponse)
    (props.contains Property.write) (secure.contains Property.write)
    (props.contains Property.notify) (secure.contains Property.notify)
    (props.contains Property.indicate) (secure.contains Property.indicate)
  have hp := mapFlagsB_permission_bits
    (props.contains Property.read) (secure.contains Property.read)
    (props.contains Property.writeWithoutResponse)
    (secure.contains Property.writeWithoutResponse)
    (props.contains Property.write) (secure.contains Property.write)
    (props.contains Property.notify) (secure.contains Property.notify)
    (props.contains Property.indicate) (secure.contains Property.indicate)
  exact ⟨hc.1, hc.2.1, hc.2.2.1, hc.2.2.2.1, hc.2.2.2.2.1, hc.2.2.2.2.2.1,
    hc.2.2.2.2.2.2, hp.1, hp.2.1, hp.2.2.1, hp.2.2.2⟩

/-- Witness for C1 at a concrete characteristic: properties
{Read, Write, Notify}, secure {Notify}. -/
theorem add_service_capability_mapping_witness :
    (∀ p, p ∈ [Property.notify] → p ∈ [Property.read, Property.write, Property.notify])
    ∧ ((mapFlags [Property.read, Property.write, Property.notify]
          [Property.notify]).1.testBit 1
        = [Property.read, Property.write, Property.notify].contains Property.read) :=
  ⟨by decide,
   (add_service_capability_mapping
      [Property.read, Property.write, Property.notify] [Property.notify]
      (by decide)).1⟩

/-- C2 counterexample: with `properties = {WriteWithoutResponse,
Write}` and `secure = {WriteWithoutResponse}` (exactly one of the two
write-type properties secure), the claim predicts that the
last-evaluated property (Write, not secure) overwrites the earlier
permission bit, leaving exactly one write permission bit set — the
plain writeable one.  In fact the code accumulates with `|=`, so both
the writeable bit and the write-encryption-required bit are set and
nothing is overwritten. -/
theorem write_permission_last_wins_counterexample :
    ((mapFlags [Property.writeWithoutResponse, Property.write]
        [Property.writeWithoutResponse]).2.testBit 1 = true)
    ∧ ((mapFlags [Property.writeWithoutResponse, Property.write]
        [Property.writeWithoutResponse]).2.testBit 3 = true)
    ∧ (mapFlags [Property.writeWithoutResponse, Property.write]
        [Property.writeWithoutResponse]).2
      = (cbAttributePermissionsWriteable
         ||| cbAttributePermissionsWriteEncryptionRequired) := by
  decide

/-- C2 amended: when a characteristic's properties contain both Write
and WriteWithoutResponse and exactly one of the two is in `secure`,
the two write-type properties OR their permission contributions into
the same field, so both the plain writeable bit and the
write-encryption-required bit end up set; no bit is overwritten and
neither evaluation wins over the other. -/
theorem write_permission_accumulates (props secure : List Property)
    (hww : props.contains Property.writeWithoutResponse = true)
    (hw : props.contains Property.write = true)
    (hx : secure.contains Property.writeWithoutResponse
          ≠ secure.contains Property.write) :
    ((mapFlags props secure).2.testBit 1 = true)
    ∧ ((mapFlags props secure).2.testBit 3 = true) := by
  have hp := mapFlagsB_permission_bits
    (props.contains Property.read) (secure.contains Property.read)
    (props.contains Property.writeWithoutResponse)
    (secure.contains Property.writeWithoutResponse)
    (props.contains Property.write) (secure.contains Property.write)
    (props.contains Property.notify) (secure.contains Property.notify)
    (props.contains Property.indicate) (secure.contains Property.indicate)
  have h1 := hp.2.2.1
  have h3 := hp.2.2.2
  rw [show mapFlags props secure = mapFlagsB
    (props.contains Property.read) (secure.contains Property.read)
    (props.contains Property.writeWithoutResponse)
    (secure.contains Property.writeWithoutResponse)
    (props.contains Property.write) (secure.contains Property.write)
    (props.contains Property.notify) (secure.contains Property.notify)
    (props.contains Property.indicate) (secure.contains Property.indicate)
    from rfl] at *
  constructor
  · rw [h1, hww, hw]
    rcases hb : secure.contains Property.writeWithoutResponse with _ | _ <;>
      rcases hc : secure.contains Property.write with _ | _ <;>
      simp_all
  · rw [h3, hww, hw]
    rcases hb : secure.contains Property.writeWithoutResponse with _ | _ <;>
      rcases hc : secure.contains Property.write with _ | _ <;>
      simp_all

/-- Witness for the amended C2 at properties {WriteWithoutResponse,
Write}, secure {WriteWithoutResponse}. -/
theorem write_permission_accumulates_witness :
    ((mapFlags [Property.writeWithoutResponse, Property.write]
        [Property.writeWithoutResponse]).2.testBit 1 = true)
    ∧ ((mapFlags [Property.writeWithoutResponse, Property.write]
        [Property.writeWithoutResponse]).2.testBit 3 = true) :=
  write_permission_accumulates
    [Property.writeWithoutResponse, Property.write]
    [Property.writeWithoutResponse]
    (by decide) (by decide) (by decide)

/-- C10: when none of Read, Write, WriteWithoutResponse is among the
properties (for example only Notify and/or Indicate), the permission
flags are exactly 0: Notify and Indicate never contribute a
permission bit, secure or not. -/
theorem no_rw_properties_empty_permissions (props secure : List Property)
    (hr : props.contains Property.read = false)
    (hww : props.contains Property.writeWithoutResponse = false)
    (hw : props.contains Property.write = false) :
    (mapFlags props secure).2 = 0 := by
  rw [show mapFlags props secure = mapFlagsB
    (props.contains Property.read) (secure.contains Property.read)
    (props.contains Property.writeWithoutResponse)
    (secure.contains Property.writeWithoutResponse)
    (props.contains Property.write) (secure.contains Property.write)
    (props.contains Property.notify) (secure.contains Property.notify)
    (props.contains Property.indicate) (secure.contains Property.indicate)
    from rfl, hr, hww, hw]
  rcases secure.contains Property.read <;>
    rcases secure.contains Property.writeWithoutResponse <;>
    rcases secure.contains Property.write <;>
    rcases props.contains Property.notify <;>
    rcases secure.contains Property.notify <;>
    rcases props.contains Property.indicate <;>
    rcases secure.contains Property.indicate <;>
    rfl

/-- Witness for C10 at a characteristic offering only secure Notify
and plain Indicate. -/
theorem no_rw_properties_empty_permissions_witness :
    (mapFlags [Property.notify, Property.indicate] [Property.notify]).2 = 0 :=
  no_rw_properties_empty_permissions
    [Property.notify, Property.indicate] [Property.notify]
    (by decide) (by decide) (by decide)

/-- C3 counterexample: after the event sequence
`[PoweredOn, Unknown]` the most recent event does not carry
`PoweredOn`, yet `is_powered_on` still returns `true`: the handler's
arm for `Unknown` (like those for `Resetting`, `Unsupported`,
`Unauthorized`) only prints and leaves the cached flag untouched, so
the claimed equivalence with "the most recent event carried
PoweredOn" fails at this input. -/
theorem is_powered_on_last_event_counterexample :
    ¬ (is_powered_on (runEvents [CBManagerState.poweredOn, CBManagerState.unknown])
         = some true
       ↔ [CBManagerState.poweredOn, CBManagerState.unknown].getLast?
         = some CBManagerState.poweredOn) := by
  decide

/-- C3 amended: after any sequence of `power_state_changed` events,
`is_powered_on()` returns `true` iff the most recent
PoweredOn/PoweredOff event was `PoweredOn`; events carrying the four
other states leave the cached flag unchanged rather than making it
false. -/
theorem is_powered_on_iff_last_toggle (events : List CBManagerState) :
    is_powered_on (runEvents events) = some true ↔
      (events.filter isToggleEvent).getLast? = some CBManagerState.poweredOn := by
  induction events using List.reverseRecOn with
  | nil =>
      simp [runEvents, initDelegate, is_powered_on, objc_to_rust_bool, yesBool, noBool]
  | append_singleton l a ih =>
      have hfold : runEvents (l ++ [a]) = didUpdateState (runEvents l) a := by
        simp [runEvents, List.foldl_append]
      rw [hfold]
      rcases a <;>
        simp_all [didUpdateState, is_powered_on, objc_to_rust_bool, isToggleEvent,
          List.filter_append, List.getLast?_concat, yesBool, noBool]

/-- C4: `is_powered_on()` is `false` before any
`power_state_changed(PoweredOn)` event has been delivered, `true`
immediately after a `PoweredOn` event is processed, and `false`
again after a subsequent `PoweredOff` event is processed. -/
theorem is_powered_on_init_on_off :
    (∀ events : List CBManagerState, CBManagerState.poweredOn ∉ events →
       is_powered_on (runEvents events) = some false)
    ∧ (∀ st : DelegateState,
       is_powered_on (didUpdateState st CBManagerState.poweredOn) = some true)
    ∧ (∀ st : DelegateState,
       is_powered_on (didUpdateState st CBManagerState.poweredOff) = some false) := by
  refine ⟨?_, ?_, ?_⟩
  · intro events hmem
    have aux : ∀ (evs : List CBManagerState) (st : DelegateState),
        CBManagerState.poweredOn ∉ evs → st.poweredOn = noBool →
        (evs.foldl didUpdateState st).poweredOn = noBool := by
      intro evs
      induction evs with
      | nil => intro st _ h0; simpa using h0
      | cons e t ih =>
          intro st hmem h0
          have he : e ≠ CBManagerState.poweredOn := by
            intro h
            exact hmem (by simp [h])
          have ht : CBManagerState.poweredOn ∉ t := by
            intro h
            exact hmem (List.mem_cons_of_mem _ h)
          have hstep : (didUpdateState st e).poweredOn = noBool := by
            rcases e <;> simp_all [didUpdateState]
          exact ih (didUpdateState st e) ht hstep
    have h : (runEvents events).poweredOn = noBool :=
      aux events initDelegate hmem rfl
    simp [is_powered_on, objc_to_rust_bool, h, yesBool, noBool]
  · intro st
    simp [didUpdateState, is_powered_on, objc_to_rust_bool, yesBool, noBool]
  · intro st
    simp [didUpdateState, is_powered_on, objc_to_rust_bool, yesBool, noBool]

/-- Witness for C4: a run without any `PoweredOn` event reads `false`;
a `PoweredOn` event from the initial state reads `true`; a
`PoweredOff` event right after reads `false`. -/
theorem is_powered_on_init_on_off_witness :
    is_powered_on (runEvents [CBManagerState.unknown, CBManagerState.poweredOff])
       = some false
    ∧ is_powered_on (didUpdateState initDelegate CBManagerState.poweredOn) = some true
    ∧ is_powered_on (didUpdateState
        (didUpdateState initDelegate CBManagerState.poweredOn)
        CBManagerState.poweredOff) = some false :=
  ⟨is_powered_on_init_on_off.1 [CBManagerState.unknown, CBManagerState.poweredOff]
     (by decide),
   is_powered_on_init_on_off.2.1 initDelegate,
   is_powered_on_init_on_off.2.2
     (didUpdateState initDelegate CBManagerState.poweredOn)⟩

/-- C9: in every reachable state the `poweredOn` ivar holds exactly
`YES` or `NO` (it is initialised to `NO` and only ever assigned `YES`
or `NO`), so `objc_to_rust_bool` never reaches its panic branch when
`is_powered_on` reads it. -/
theorem poweredOn_ivar_yes_or_no (events : List CBManagerState) :
    ((runEvents events).poweredOn = noBool ∨ (runEvents events).poweredOn = yesBool)
    ∧ (is_powered_on (runEvents events)).isSome = true := by
  have aux : ∀ (evs : List CBManagerState) (st : DelegateState),
      st.poweredOn = noBool ∨ st.poweredOn = yesBool →
      ((evs.foldl didUpdateState st).poweredOn = noBool
        ∨ (evs.foldl didUpdateState st).poweredOn = yesBool) := by
    intro evs
    induction evs with
    | nil => intro st h; simpa using h
    | cons e t ih =>
        intro st h
        apply ih
        rcases e <;> simp_all [didUpdateState]
  have h : (runEvents events).poweredOn = noBool
      ∨ (runEvents events).poweredOn = yesBool :=
    aux events initDelegate (Or.inl rfl)
  refine ⟨h, ?_⟩
  rcases h with h | h <;>
    simp [is_powered_on, objc_to_rust_bool, h, yesBool, noBool]

/-- C5: the read handler responds `Success` to the request handle it
is given, whichever it is, and the write handler answers a batch of
handles with one `Success` per handle, in the delivery order of the
handles. -/
theorem request_servicer_success (request : RequestHandle)
    (requests : List RequestHandle) :
    didReceiveReadRequest request = [(request, CBATTError.success)]
    ∧ (didReceiveWriteRequests requests).map Prod.fst = requests
    ∧ (didReceiveWriteRequests requests).map Prod.snd
       = List.replicate requests.length CBATTError.success := by
  refine ⟨rfl, ?_, ?_⟩
  · induction requests with
    | nil => rfl
    | cons r t ih => simp_all [didReceiveWriteRequests]
  · induction requests with
    | nil => rfl
    | cons r t ih => simp_all [didReceiveWriteRequests, List.replicate]

/-- C6: `start_advertising` composes a payload with exactly two
entries: the local name, unmodified, and the input UUID list rendered
hyphenated in input order. -/
theorem start_advertising_payload (name : String) (uuids : List Uuid) :
    (start_advertising name uuids).length = 2
    ∧ (start_advertising name uuids)[0]?
       = some (AdvKey.localNameKey, AdvValue.str name)
    ∧ (start_advertising name uuids)[1]?
       = some (AdvKey.serviceUUIDsKey,
           AdvValue.strList (uuids.map uuidToHyphenated))
    ∧ ∀ i : Nat, (uuids.map uuidToHyphenated)[i]?
       = (uuids[i]?).map uuidToHyphenated := by
  refine ⟨rfl, rfl, rfl, ?_⟩
  intro i
  simp [List.getElem?_map]

/-- C7: the registration descriptor built by `add_service` keeps the
count and order of the service's characteristics (the i-th descriptor
is built from the i-th input characteristic), carries the service's
uuid, and is marked primary. -/
theorem add_service_descriptor (s : PrimaryService) :
    (add_service s).characteristics.length = s.characteristics.length
    ∧ (∀ i : Nat, (add_service s).characteristics[i]?
        = (s.characteristics[i]?).map buildCharacteristic)
    ∧ (add_service s).uuid = uuidToHyphenated s.uuid
    ∧ (add_service s).primary = true := by
  refine ⟨by simp [add_service], ?_, rfl, rfl⟩
  intro i
  simp [add_service, List.getElem?_map]

/-- C8: the claim ("delivered with an error, the handler only logs
the error's description, leaves state unchanged and fails in no other
way") describes the evident intent of the nil-test, but the code
truncates the NSError *pointer* to a BOOL.  Evaluated at genuine
non-null error pointers: a typical 16-byte-aligned heap address with
low byte `0x60` reaches the `panic!` branch of `objc_to_rust_bool`
(result `none`), a 256-aligned address with low byte `0x00` reads as
`NO` and silently skips the description; only a pointer whose low
byte is exactly `1` behaves as the claim says. -/
theorem async_error_pointer_truncation (st : DelegateState)
    (service : CBMutableService) (description : String) :
    (didStartAdvertisingError st ⟨0x4560, description⟩ = none)
    ∧ (didAddServiceError st service ⟨0x4560, description⟩ = none)
    ∧ (didStartAdvertisingError st ⟨0x4500, description⟩
       = some (st, ["peripheral_manager_did_start_advertising_error"]))
    ∧ (didAddServiceError st service ⟨0x4500, description⟩
       = some (st, ["peripheral_manager_did_add_service_error"]))
    ∧ (didStartAdvertisingError st ⟨1, description⟩
       = some (st, ["peripheral_manager_did_start_advertising_error",
                    description]))
    ∧ (didStartAdvertisingError st ⟨0, description⟩
       = some (st, ["peripheral_manager_did_start_advertising_error"])) := by
  have h96 : objc_to_rust_bool (ptrAsBool 0x4560) = none := by
    simp [objc_to_rust_bool, ptrAsBool, yesBool, noBool]
  have h00 : objc_to_rust_bool (ptrAsBool 0x4500) = some false := by
    simp [objc_to_rust_bool, ptrAsBool, yesBool, noBool]
  have hy : objc_to_rust_bool (ptrAsBool 1) = some true := by
    simp [objc_to_rust_bool, ptrAsBool, yesBool, noBool]
  have hn : objc_to_rust_bool (ptrAsBool 0) = some false := by
    simp [objc_to_rust_bool, ptrAsBool, yesBool, noBool]
  refine ⟨?_, ?_, ?_, ?_, ?_, ?_⟩ <;>
    simp only [didStartAdvertisingError, didAddServiceError, h96, h00, hy, hn,
      Option.map_none', Option.map_some', if_true, if_false] <;> rfl

end Bluster
